import Mathlib

set_option autoImplicit false

/-!
Verification of the threat-detection-and-response engine in
`applications/security_system.py` (class `MojoMosaicSecurity`).

The shallow embedding below translates the relevant Python methods into
pure Lean functions.  Floats are modelled as rationals (`ℚ`), `datetime`
timestamps as rationals (seconds), the Python `set` of blocked IPs as a
`Finset String`, and the local `failed_attempts` dictionary of
`_monitor_login_attempts` as a total function `String → ℕ` (defaulting
to 0, exactly as `dict.get(ip, 0)` does).  Stateful methods become
explicit state-passing functions; the nondeterministic inputs that the
Python code draws from `random` / `datetime.now()` (IP address, threat
subtype, confidence, current time) become explicit parameters.
-/

/-- The `ThreatLevel` enum of the source: LOW, MEDIUM, HIGH, CRITICAL. -/
inductive ThreatLevel where
  | LOW
  | MEDIUM
  | HIGH
  | CRITICAL
deriving DecidableEq, Repr

/-- Numeric rank of a threat level, giving the total order
LOW < MEDIUM < HIGH < CRITICAL used by the spec. -/
def ThreatLevel.toNat : ThreatLevel → Nat
  | .LOW => 0
  | .MEDIUM => 1
  | .HIGH => 2
  | .CRITICAL => 3

/-- The `SecurityEvent` dataclass of the source. -/
structure SecurityEvent where
  timestamp : ℚ
  event_type : String
  source_ip : String
  threat_level : ThreatLevel
  description : String
  confidence : ℚ
  action_taken : String
deriving DecidableEq, Repr

/-- The `alert_thresholds` table installed by `MojoMosaicSecurity.__init__`:
LOW ↦ 0.3, MEDIUM ↦ 0.6, HIGH ↦ 0.8, CRITICAL ↦ 0.9. -/
def alertThresholdsInit : ThreatLevel → ℚ
  | .LOW => 3/10
  | .MEDIUM => 6/10
  | .HIGH => 8/10
  | .CRITICAL => 9/10

/-- The mutable attributes of a `MojoMosaicSecurity` instance, together with
the `failed_attempts` counter table that `_monitor_login_attempts` keeps
(the spec's FailedAttemptCounters). -/
structure MojoMosaicSecurity where
  active_monitoring : Bool
  event_history : List SecurityEvent
  blocked_ips : Finset String
  alert_thresholds : ThreatLevel → ℚ
  failed_attempts : String → ℕ

/-- The state produced by `MojoMosaicSecurity.__init__`. -/
def MojoMosaicSecurity.init : MojoMosaicSecurity :=
  { active_monitoring := true
    event_history := []
    blocked_ips := ∅
    alert_thresholds := alertThresholdsInit
    failed_attempts := fun _ => 0 }

/-- `_calculate_threat_level`: confidence ≥ 0.9 → CRITICAL, else ≥ 0.8 →
HIGH, else ≥ 0.6 → MEDIUM, else LOW.  The method takes `self` but reads no
attribute of it (in particular not `alert_thresholds`). -/
def MojoMosaicSecurity.calculateThreatLevel (self : MojoMosaicSecurity)
    (confidence : ℚ) : ThreatLevel :=
  if confidence ≥ 9/10 then ThreatLevel.CRITICAL
  else if confidence ≥ 8/10 then ThreatLevel.HIGH
  else if confidence ≥ 6/10 then ThreatLevel.MEDIUM
  else ThreatLevel.LOW

/-- The per-level action strings of `_take_security_action`. -/
def securityActionString (threat_level : ThreatLevel) (source_ip : String) :
    String :=
  match threat_level with
  | .LOW => "Logged for monitoring"
  | .MEDIUM => "Rate limiting applied to " ++ source_ip
  | .HIGH => "IP " ++ source_ip ++ " temporarily blocked"
  | .CRITICAL => "IP " ++ source_ip ++ " permanently blocked, admin alerted"

/-- `_take_security_action`: returns the action string for the level and,
when the level is HIGH or CRITICAL, adds the source IP to `blocked_ips`. -/
def MojoMosaicSecurity.takeSecurityAction (self : MojoMosaicSecurity)
    (threat_level : ThreatLevel) (source_ip : String) :
    MojoMosaicSecurity × String :=
  let self' :=
    if threat_level = ThreatLevel.HIGH ∨ threat_level = ThreatLevel.CRITICAL
    then { self with blocked_ips := insert source_ip self.blocked_ips }
    else self
  (self', securityActionString threat_level source_ip)

/-- The `SecurityEvent` built by `_handle_brute_force`: threat level HIGH,
confidence 0.9, and an action string written directly (not obtained from
`_take_security_action`). -/
def bruteForceEvent (ip : String) (attempts : ℕ) (now : ℚ) : SecurityEvent :=
  { timestamp := now
    event_type := "brute_force_attack"
    source_ip := ip
    threat_level := ThreatLevel.HIGH
    description := "Brute force attack: " ++ toString attempts ++
      " failed login attempts from " ++ ip
    confidence := 9/10
    action_taken := "IP " ++ ip ++ " blocked for 1 hour" }

/-- `_handle_brute_force`: builds the brute-force event, adds the IP to
`blocked_ips` directly, and appends the event to `event_history`. -/
def MojoMosaicSecurity.handleBruteForce (self : MojoMosaicSecurity)
    (ip : String) (attempts : ℕ) (now : ℚ) : MojoMosaicSecurity :=
  let event := bruteForceEvent ip attempts now
  { self with
      blocked_ips := insert ip self.blocked_ips
      event_history := self.event_history ++ [event] }

/-- One triggered cycle of `_monitor_login_attempts` (a failed login from
`ip` observed at time `now`): increment the counter for `ip`; if it has
reached 5, handle the brute force and reset the counter to 0. -/
def MojoMosaicSecurity.loginFailStep (self : MojoMosaicSecurity)
    (ip : String) (now : ℚ) : MojoMosaicSecurity :=
  let n := self.failed_attempts ip + 1
  let self1 :=
    { self with failed_attempts := Function.update self.failed_attempts ip n }
  if n ≥ 5 then
    let self2 := self1.handleBruteForce ip n now
    { self2 with
        failed_attempts := Function.update self2.failed_attempts ip 0 }
  else self1

/-- `_analyze_suspicious_traffic`: classify the confidence, take the
security action, append the resulting event. -/
def MojoMosaicSecurity.analyzeSuspiciousTraffic (self : MojoMosaicSecurity)
    (source_ip threat_type : String) (confidence now : ℚ) :
    MojoMosaicSecurity :=
  let threat_level := self.calculateThreatLevel confidence
  let res := self.takeSecurityAction threat_level source_ip
  let event : SecurityEvent :=
    { timestamp := now
      event_type := "suspicious_traffic_" ++ threat_type
      source_ip := source_ip
      threat_level := threat_level
      description := "Suspicious " ++ threat_type ++
        " activity detected from " ++ source_ip
      confidence := confidence
      action_taken := res.2 }
  { res.1 with event_history := res.1.event_history ++ [event] }

/-- `_analyze_file_changes`: classify the confidence and append an event;
no blocklist mutation (the action string is fixed). -/
def MojoMosaicSecurity.analyzeFileChanges (self : MojoMosaicSecurity)
    (file_name : String) (confidence now : ℚ) : MojoMosaicSecurity :=
  let threat_level := self.calculateThreatLevel confidence
  let event : SecurityEvent :=
    { timestamp := now
      event_type := "unauthorized_file_change"
      source_ip := "localhost"
      threat_level := threat_level
      description := "Unauthorized modification detected in " ++ file_name
      confidence := confidence
      action_taken := "File change logged and admin notified" }
  { self with event_history := self.event_history ++ [event] }

/-- `_analyze_database_query`: classify the confidence and append an event;
no blocklist mutation (the action string is fixed). -/
def MojoMosaicSecurity.analyzeDatabaseQuery (self : MojoMosaicSecurity)
    (query_type source_ip : String) (confidence now : ℚ) :
    MojoMosaicSecurity :=
  let threat_level := self.calculateThreatLevel confidence
  let event : SecurityEvent :=
    { timestamp := now
      event_type := "suspicious_db_query_" ++ query_type
      source_ip := source_ip
      threat_level := threat_level
      description := "Potential " ++ query_type ++
        " attempt detected from " ++ source_ip
      confidence := confidence
      action_taken := "Query blocked and connection terminated" }
  { self with event_history := self.event_history ++ [event] }

/-- The windowed snapshot computed by `_generate_threat_intelligence`:
`[e for e in event_history if e.timestamp > now - window]` (the code uses
a strict comparison; its window is fixed at one minute, generalized here
to a parameter). -/
def snapshotSince (now window : ℚ) (history : List SecurityEvent) :
    List SecurityEvent :=
  history.filter (fun e => decide (now - window < e.timestamp))

/-- The report emitted by `_generate_threat_report`: per-level counts in
first-occurrence order and the number of blocked IPs. -/
structure ThreatReport where
  threat_counts : List (ThreatLevel × ℕ)
  total_blocked : ℕ
deriving DecidableEq, Repr

/-- One `threat_counts[...] = threat_counts.get(..., 0) + 1` update on an
insertion-ordered association list (modelling the Python dict). -/
def bumpCount (counts : List (ThreatLevel × ℕ)) (l : ThreatLevel) :
    List (ThreatLevel × ℕ) :=
  match counts with
  | [] => [(l, 1)]
  | (k, n) :: rest =>
      if k = l then (k, n + 1) :: rest else (k, n) :: bumpCount rest l

/-- The per-level count table built by the loop of
`_generate_threat_report`. -/
def threatCounts (events : List SecurityEvent) : List (ThreatLevel × ℕ) :=
  events.foldl (fun acc e => bumpCount acc e.threat_level) []

/-- `_generate_threat_report`: returns early (no report) on an empty event
list; otherwise emits the per-level counts and the blocked-IP total.  The
method reads state but assigns to no attribute. -/
def MojoMosaicSecurity.generateThreatReport (self : MojoMosaicSecurity)
    (events : List SecurityEvent) : Option ThreatReport :=
  if events = [] then none
  else some
    { threat_counts := threatCounts events
      total_blocked := self.blocked_ips.card }

/-- One cycle of `_generate_threat_intelligence`: take the one-minute
window of `event_history`; if it is non-empty, generate a report.  The
cycle assigns to no attribute, so the state component is `self`. -/
def MojoMosaicSecurity.threatIntelligenceCycle (self : MojoMosaicSecurity)
    (now : ℚ) : MojoMosaicSecurity × Option ThreatReport :=
  let recent_events := snapshotSince now 60 self.event_history
  if recent_events ≠ [] then (self, self.generateThreatReport recent_events)
  else (self, none)

/-- `stop_monitoring`: clears the `active_monitoring` flag. -/
def MojoMosaicSecurity.stopMonitoring (self : MojoMosaicSecurity) :
    MojoMosaicSecurity :=
  { self with active_monitoring := false }

/-- The state-mutating operations of an engine run, with the
nondeterministic inputs of each as explicit parameters. -/
inductive EngineOp where
  | suspiciousTraffic (source_ip threat_type : String) (confidence now : ℚ)
  | loginFail (ip : String) (now : ℚ)
  | fileChange (file_name : String) (confidence now : ℚ)
  | databaseQuery (query_type source_ip : String) (confidence now : ℚ)
  | bruteForce (ip : String) (attempts : ℕ) (now : ℚ)
  | reporterCycle (now : ℚ)
  | stopRun

/-- Effect of one engine operation on the shared state. -/
def EngineOp.apply : EngineOp → MojoMosaicSecurity → MojoMosaicSecurity
  | .suspiciousTraffic ip t c now, s => s.analyzeSuspiciousTraffic ip t c now
  | .loginFail ip now, s => s.loginFailStep ip now
  | .fileChange f c now, s => s.analyzeFileChanges f c now
  | .databaseQuery q ip c now, s => s.analyzeDatabaseQuery q ip c now
  | .bruteForce ip n now, s => s.handleBruteForce ip n now
  | .reporterCycle now, s => (s.threatIntelligenceCycle now).1
  | .stopRun, s => s.stopMonitoring

/-- C1: for every confidence in [0,1] the classifier follows the inclusive
lower bounds, highest first: ≥ 0.9 CRITICAL, [0.8, 0.9) HIGH, [0.6, 0.8)
MEDIUM, below 0.6 LOW. -/
theorem calculateThreatLevel_breakpoints (s : MojoMosaicSecurity) (c : ℚ)
    (h0 : 0 ≤ c) (h1 : c ≤ 1) :
    (9/10 ≤ c → s.calculateThreatLevel c = ThreatLevel.CRITICAL) ∧
    (8/10 ≤ c → c < 9/10 → s.calculateThreatLevel c = ThreatLevel.HIGH) ∧
    (6/10 ≤ c → c < 8/10 → s.calculateThreatLevel c = ThreatLevel.MEDIUM) ∧
    (c < 6/10 → s.calculateThreatLevel c = ThreatLevel.LOW) := by
  unfold MojoMosaicSecurity.calculateThreatLevel
  refine ⟨fun h => ?_, fun h h' => ?_, fun h h' => ?_, fun h => ?_⟩
  · rw [if_pos (by linarith)]
  · rw [if_neg (by simp only [ge_iff_le, not_le]; linarith),
      if_pos (by linarith)]
  · rw [if_neg (by simp only [ge_iff_le, not_le]; linarith),
      if_neg (by simp only [ge_iff_le, not_le]; linarith),
      if_pos (by linarith)]
  · rw [if_neg (by simp only [ge_iff_le, not_le]; linarith),
      if_neg (by simp only [ge_iff_le, not_le]; linarith),
      if_neg (by simp only [ge_iff_le, not_le]; linarith)]

/-- Witness for C1 at the concrete confidence 0.85. -/
theorem calculateThreatLevel_breakpoints_witness :
    MojoMosaicSecurity.init.calculateThreatLevel (17/20) = ThreatLevel.HIGH :=
  (calculateThreatLevel_breakpoints MojoMosaicSecurity.init (17/20)
    (by norm_num) (by norm_num)).2.1 (by norm_num) (by norm_num)

/-- C5: the classifier (a total Lean function, hence deterministic) is
monotone with respect to the ThreatLevel order LOW < MEDIUM < HIGH <
CRITICAL: c1 ≤ c2 implies classify(c1) ≤ classify(c2). -/
theorem calculateThreatLevel_monotone (s : MojoMosaicSecurity) (c1 c2 : ℚ)
    (h : c1 ≤ c2) :
    (s.calculateThreatLevel c1).toNat ≤ (s.calculateThreatLevel c2).toNat := by
  unfold MojoMosaicSecurity.calculateThreatLevel
  split_ifs <;> simp only [ThreatLevel.toNat] <;>
    first | omega | (exfalso; linarith)

/-- Witness for C5 at the concrete pair 0.5 ≤ 0.7. -/
theorem calculateThreatLevel_monotone_witness :
    (MojoMosaicSecurity.init.calculateThreatLevel (1/2)).toNat ≤
      (MojoMosaicSecurity.init.calculateThreatLevel (7/10)).toNat :=
  calculateThreatLevel_monotone MojoMosaicSecurity.init (1/2) (7/10)
    (by norm_num)

/-- C9: the alert-threshold table is dead configuration: classification is
unchanged between two states that differ only in `alert_thresholds`,
because `_calculate_threat_level` never reads the table. -/
theorem calculateThreatLevel_ignores_alert_thresholds
    (s : MojoMosaicSecurity) (t : ThreatLevel → ℚ) (c : ℚ) :
    MojoMosaicSecurity.calculateThreatLevel
        { s with alert_thresholds := t } c =
      s.calculateThreatLevel c := rfl

/-- C2: for every level and identifier, `_take_security_action` returns
exactly the per-level action string; the identifier is inserted into the
blocklist precisely when the level is HIGH or CRITICAL, and for LOW and
MEDIUM the blocklist is unchanged. -/
theorem takeSecurityAction_spec (s : MojoMosaicSecurity)
    (level : ThreatLevel) (ip : String) :
    (s.takeSecurityAction level ip).2 = securityActionString level ip ∧
    (level = ThreatLevel.HIGH ∨ level = ThreatLevel.CRITICAL →
      (s.takeSecurityAction level ip).1.blocked_ips =
        insert ip s.blocked_ips) ∧
    (level = ThreatLevel.LOW ∨ level = ThreatLevel.MEDIUM →
      (s.takeSecurityAction level ip).1.blocked_ips = s.blocked_ips) ∧
    (ip ∈ (s.takeSecurityAction level ip).1.blocked_ips ↔
      ip ∈ s.blocked_ips ∨
        (level = ThreatLevel.HIGH ∨ level = ThreatLevel.CRITICAL)) := by
  unfold MojoMosaicSecurity.takeSecurityAction
  cases level <;>
    simp [securityActionString, Finset.mem_insert, or_comm]

/-- Witness for C2 at level HIGH with a concrete identifier. -/
theorem takeSecurityAction_spec_witness :
    (MojoMosaicSecurity.init.takeSecurityAction
        ThreatLevel.HIGH "10.0.0.7").1.blocked_ips =
      insert "10.0.0.7" MojoMosaicSecurity.init.blocked_ips :=
  (takeSecurityAction_spec MojoMosaicSecurity.init
    ThreatLevel.HIGH "10.0.0.7").2.1 (Or.inl rfl)

/-- C6: blocklist insertion is idempotent: responding twice with the same
HIGH or CRITICAL level and identifier leaves the blocklist equal to a
single insertion, the identifier is a member, and (the blocklist being a
set) it occurs exactly once. -/
theorem takeSecurityAction_idempotent (s : MojoMosaicSecurity)
    (level : ThreatLevel) (ip : String)
    (h : level = ThreatLevel.HIGH ∨ level = ThreatLevel.CRITICAL) :
    (((s.takeSecurityAction level ip).1.takeSecurityAction level
        ip).1.blocked_ips =
      (s.takeSecurityAction level ip).1.blocked_ips) ∧
    ip ∈ (((s.takeSecurityAction level ip).1.takeSecurityAction level
        ip).1.blocked_ips) ∧
    ((((s.takeSecurityAction level ip).1.takeSecurityAction level
        ip).1.blocked_ips).filter (fun x => x = ip)).card = 1 := by
  rcases h with h | h <;> subst h <;>
    simp [MojoMosaicSecurity.takeSecurityAction, Finset.insert_idem,
      Finset.filter_eq', Finset.mem_insert]

/-- Witness for C6 at level CRITICAL with a concrete identifier. -/
theorem takeSecurityAction_idempotent_witness :
    "10.0.0.9" ∈
      (((MojoMosaicSecurity.init.takeSecurityAction ThreatLevel.CRITICAL
          "10.0.0.9").1.takeSecurityAction ThreatLevel.CRITICAL
          "10.0.0.9").1.blocked_ips) ∧
    ((((MojoMosaicSecurity.init.takeSecurityAction ThreatLevel.CRITICAL
          "10.0.0.9").1.takeSecurityAction ThreatLevel.CRITICAL
          "10.0.0.9").1.blocked_ips).filter (fun x => x = "10.0.0.9")).card
      = 1 :=
  ⟨(takeSecurityAction_idempotent MojoMosaicSecurity.init
      ThreatLevel.CRITICAL "10.0.0.9" (Or.inr rfl)).2.1,
    (takeSecurityAction_idempotent MojoMosaicSecurity.init
      ThreatLevel.CRITICAL "10.0.0.9" (Or.inr rfl)).2.2⟩

/-- A triggered login failure whose incremented counter is still below 5
only bumps the counter; no event is emitted and no IP is blocked. -/
theorem loginFailStep_below (s : MojoMosaicSecurity) (ip : String) (now : ℚ)
    (h : s.failed_attempts ip + 1 < 5) :
    s.loginFailStep ip now =
      { s with failed_attempts :=
          (Function.update s.failed_attempts ip
            (s.failed_attempts ip + 1)) } := by
  unfold MojoMosaicSecurity.loginFailStep
  rw [if_neg (by omega)]

/-- A triggered login failure whose incremented counter reaches 5 appends
the brute-force event, blocks the IP, and resets the counter to 0. -/
theorem loginFailStep_hit (s : MojoMosaicSecurity) (ip : String) (now : ℚ)
    (h : 5 ≤ s.failed_attempts ip + 1) :
    s.loginFailStep ip now =
      { s with
          event_history := s.event_history ++
            [bruteForceEvent ip (s.failed_attempts ip + 1) now]
          blocked_ips := insert ip s.blocked_ips
          failed_attempts := Function.update s.failed_attempts ip 0 } := by
  unfold MojoMosaicSecurity.loginFailStep MojoMosaicSecurity.handleBruteForce
  rw [if_pos h]
  simp [Function.update_idem]

/-- Projection form of `loginFailStep_below`: history and blocklist are
unchanged and the counter for `ip` goes up by one. -/
theorem loginFailStep_facts_below (s : MojoMosaicSecurity) (ip : String)
    (now : ℚ) (h : s.failed_attempts ip + 1 < 5) :
    (s.loginFailStep ip now).event_history = s.event_history ∧
    (s.loginFailStep ip now).blocked_ips = s.blocked_ips ∧
    (s.loginFailStep ip now).failed_attempts ip =
      s.failed_attempts ip + 1 := by
  rw [loginFailStep_below s ip now h]
  exact ⟨rfl, rfl, by simp⟩

/-- Projection form of `loginFailStep_hit` when the counter lands exactly
on 5: one brute-force event is appended, the IP is blocked, and the
counter for `ip` resets to 0. -/
theorem loginFailStep_facts_hit (s : MojoMosaicSecurity) (ip : String)
    (now : ℚ) (h : s.failed_attempts ip + 1 = 5) :
    (s.loginFailStep ip now).event_history =
      s.event_history ++ [bruteForceEvent ip 5 now] ∧
    (s.loginFailStep ip now).blocked_ips = insert ip s.blocked_ips ∧
    (s.loginFailStep ip now).failed_attempts ip = 0 := by
  rw [loginFailStep_hit s ip now (by omega)]
  exact ⟨by rw [h], rfl, by simp⟩

/-- C3: from a zero counter for `ip`, the first four triggered
authentication failures only increment the counter (no event, no block);
the fifth appends exactly one brute-force SecurityEvent, whose threat
level is HIGH and whose confidence is 0.9, and resets the counter to 0;
the sixth appends no event and restarts the counter at 1. -/
theorem brute_force_counter (s : MojoMosaicSecurity) (ip : String)
    (t1 t2 t3 t4 t5 t6 : ℚ) (h : s.failed_attempts ip = 0) :
    (((((s.loginFailStep ip t1).loginFailStep ip t2).loginFailStep ip
        t3).loginFailStep ip t4).event_history = s.event_history) ∧
    (((((s.loginFailStep ip t1).loginFailStep ip t2).loginFailStep ip
        t3).loginFailStep ip t4).blocked_ips = s.blocked_ips) ∧
    (((((s.loginFailStep ip t1).loginFailStep ip t2).loginFailStep ip
        t3).loginFailStep ip t4).failed_attempts ip = 4) ∧
    ((((((s.loginFailStep ip t1).loginFailStep ip t2).loginFailStep ip
        t3).loginFailStep ip t4).loginFailStep ip t5).event_history =
      s.event_history ++ [bruteForceEvent ip 5 t5]) ∧
    ((bruteForceEvent ip 5 t5).threat_level = ThreatLevel.HIGH) ∧
    ((bruteForceEvent ip 5 t5).confidence = 9/10) ∧
    ((((((s.loginFailStep ip t1).loginFailStep ip t2).loginFailStep ip
        t3).loginFailStep ip t4).loginFailStep ip t5).failed_attempts ip
      = 0) ∧
    (((((((s.loginFailStep ip t1).loginFailStep ip t2).loginFailStep ip
        t3).loginFailStep ip t4).loginFailStep ip t5).loginFailStep ip
        t6).event_history =
      (((((s.loginFailStep ip t1).loginFailStep ip t2).loginFailStep ip
        t3).loginFailStep ip t4).loginFailStep ip t5).event_history) ∧
    (((((((s.loginFailStep ip t1).loginFailStep ip t2).loginFailStep ip
        t3).loginFailStep ip t4).loginFailStep ip t5).loginFailStep ip
        t6).failed_attempts ip = 1) := by
  obtain ⟨e1, b1, f1⟩ := loginFailStep_facts_below s ip t1 (by omega)
  obtain ⟨e2, b2, f2⟩ :=
    loginFailStep_facts_below (s.loginFailStep ip t1) ip t2 (by omega)
  obtain ⟨e3, b3, f3⟩ :=
    loginFailStep_facts_below
      ((s.loginFailStep ip t1).loginFailStep ip t2) ip t3 (by omega)
  obtain ⟨e4, b4, f4⟩ :=
    loginFailStep_facts_below
      (((s.loginFailStep ip t1).loginFailStep ip t2).loginFailStep ip t3)
      ip t4 (by omega)
  obtain ⟨e5, b5, f5⟩ :=
    loginFailStep_facts_hit
      ((((s.loginFailStep ip t1).loginFailStep ip t2).loginFailStep ip
        t3).loginFailStep ip t4) ip t5 (by omega)
  obtain ⟨e6, b6, f6⟩ :=
    loginFailStep_facts_below
      (((((s.loginFailStep ip t1).loginFailStep ip t2).loginFailStep ip
        t3).loginFailStep ip t4).loginFailStep ip t5) ip t6 (by omega)
  refine ⟨?_, ?_, ?_, ?_, rfl, rfl, ?_, ?_, ?_⟩
  · rw [e4, e3, e2, e1]
  · rw [b4, b3, b2, b1]
  · omega
  · rw [e5, e4, e3, e2, e1]
  · exact f5
  · exact e6
  · omega

/-- Witness for C3: the fifth failure from a fresh engine state for the
identifier 10.0.0.1 appends exactly the brute-force event and resets the
counter. -/
theorem brute_force_counter_witness :
    ((((((MojoMosaicSecurity.init.loginFailStep "10.0.0.1" 1).loginFailStep
        "10.0.0.1" 2).loginFailStep "10.0.0.1" 3).loginFailStep "10.0.0.1"
        4).loginFailStep "10.0.0.1" 5).event_history =
      MojoMosaicSecurity.init.event_history ++
        [bruteForceEvent "10.0.0.1" 5 5]) ∧
    ((((((MojoMosaicSecurity.init.loginFailStep "10.0.0.1" 1).loginFailStep
        "10.0.0.1" 2).loginFailStep "10.0.0.1" 3).loginFailStep "10.0.0.1"
        4).loginFailStep "10.0.0.1" 5).failed_attempts "10.0.0.1" = 0) :=
  ⟨(brute_force_counter MojoMosaicSecurity.init "10.0.0.1" 1 2 3 4 5 6
      rfl).2.2.2.1,
    (brute_force_counter MojoMosaicSecurity.init "10.0.0.1" 1 2 3 4 5 6
      rfl).2.2.2.2.2.2.1⟩

/-- A concrete event timestamped exactly at the lower edge of a 60-second
window ending at time 60. -/
def boundaryEvent : SecurityEvent :=
  { timestamp := 0
    event_type := "suspicious_traffic_ddos"
    source_ip := "192.168.1.5"
    threat_level := ThreatLevel.MEDIUM
    description := "Suspicious ddos activity detected from 192.168.1.5"
    confidence := 7/10
    action_taken := "Rate limiting applied to 192.168.1.5" }

/-- A concrete event strictly inside the same window. -/
def insideEvent : SecurityEvent :=
  { timestamp := 50
    event_type := "suspicious_db_query_data_dump"
    source_ip := "172.16.0.9"
    threat_level := ThreatLevel.MEDIUM
    description := "Potential data_dump attempt detected from 172.16.0.9"
    confidence := 7/10
    action_taken := "Query blocked and connection terminated" }

/-- Counterexample to C4 as stated: an event whose timestamp equals
now − w (so its timestamp is at least now − w) is dropped by the snapshot,
because the code compares with a strict inequality. -/
theorem snapshotSince_boundary_counterexample :
    (60 : ℚ) - 60 ≤ boundaryEvent.timestamp ∧
    snapshotSince 60 60 [boundaryEvent] = [] := by
  constructor
  · norm_num [boundaryEvent]
  · simp [snapshotSince, boundaryEvent]

/-- C4 (amended): for any window w ≥ 0 the snapshot returns exactly the
events with timestamp strictly greater than now − w, and on a log sorted
by timestamp (as chronological appends produce) the result is in
non-decreasing timestamp order. -/
theorem snapshotSince_spec (now w : ℚ) (hw : 0 ≤ w)
    (history : List SecurityEvent)
    (hsorted : history.Sorted (fun a b => a.timestamp ≤ b.timestamp)) :
    (∀ e, e ∈ snapshotSince now w history ↔
      e ∈ history ∧ now - w < e.timestamp) ∧
    (snapshotSince now w history).Sorted
      (fun a b => a.timestamp ≤ b.timestamp) := by
  constructor
  · intro e
    simp [snapshotSince, List.mem_filter]
  · exact hsorted.filter _

/-- Witness for the amended C4 on a concrete two-event log. -/
theorem snapshotSince_spec_witness :
    insideEvent ∈ snapshotSince 60 60 [boundaryEvent, insideEvent] ∧
    (snapshotSince 60 60 [boundaryEvent, insideEvent]).Sorted
      (fun a b => a.timestamp ≤ b.timestamp) :=
  ⟨((snapshotSince_spec 60 60 (by norm_num) [boundaryEvent, insideEvent]
      (by norm_num [List.sorted_cons, boundaryEvent, insideEvent])).1
        insideEvent).mpr
      ⟨by simp, by norm_num [insideEvent]⟩,
    (snapshotSince_spec 60 60 (by norm_num) [boundaryEvent, insideEvent]
      (by norm_num [List.sorted_cons, boundaryEvent, insideEvent])).2⟩

/-- The Reporter cycle returns the state it was given: the method assigns
to no attribute. -/
theorem threatIntelligenceCycle_fst (s : MojoMosaicSecurity) (now : ℚ) :
    (s.threatIntelligenceCycle now).1 = s := by
  unfold MojoMosaicSecurity.threatIntelligenceCycle
  dsimp only
  split <;> rfl

/-- C7: a Reporter cycle never mutates the event log or the blocklist
(the whole state is unchanged), and when the trailing window holds no
events the cycle emits no report. -/
theorem threatIntelligenceCycle_frame (s : MojoMosaicSecurity) (now : ℚ) :
    (s.threatIntelligenceCycle now).1 = s ∧
    (snapshotSince now 60 s.event_history = [] →
      (s.threatIntelligenceCycle now).2 = none) := by
  refine ⟨threatIntelligenceCycle_fst s now, fun h => ?_⟩
  unfold MojoMosaicSecurity.threatIntelligenceCycle
  simp [h]

/-- Witness for C7 on the freshly initialized engine. -/
theorem threatIntelligenceCycle_frame_witness :
    (MojoMosaicSecurity.init.threatIntelligenceCycle 0).1 =
      MojoMosaicSecurity.init ∧
    (MojoMosaicSecurity.init.threatIntelligenceCycle 0).2 = none :=
  ⟨(threatIntelligenceCycle_frame MojoMosaicSecurity.init 0).1,
    (threatIntelligenceCycle_frame MojoMosaicSecurity.init 0).2 rfl⟩

/-- C8: every engine operation only grows the blocklist (no identifier is
ever removed) and only appends to the event history (no recorded event is
removed or replaced). -/
theorem engineOp_invariants (op : EngineOp) (s : MojoMosaicSecurity) :
    s.blocked_ips ⊆ (op.apply s).blocked_ips ∧
    ∃ tail, (op.apply s).event_history = s.event_history ++ tail := by
  cases op with
  | suspiciousTraffic ip t c now =>
      unfold EngineOp.apply MojoMosaicSecurity.analyzeSuspiciousTraffic
        MojoMosaicSecurity.takeSecurityAction
      dsimp only
      split
      · exact ⟨Finset.subset_insert _ _, ⟨_, rfl⟩⟩
      · exact ⟨Finset.Subset.refl _, ⟨_, rfl⟩⟩
  | loginFail ip now =>
      unfold EngineOp.apply MojoMosaicSecurity.loginFailStep
        MojoMosaicSecurity.handleBruteForce
      dsimp only
      split
      · exact ⟨Finset.subset_insert _ _, ⟨_, rfl⟩⟩
      · exact ⟨Finset.Subset.refl _, ⟨[], (List.append_nil _).symm⟩⟩
  | fileChange f c now =>
      exact ⟨Finset.Subset.refl _, ⟨_, rfl⟩⟩
  | databaseQuery q ip c now =>
      exact ⟨Finset.Subset.refl _, ⟨_, rfl⟩⟩
  | bruteForce ip n now =>
      exact ⟨Finset.subset_insert _ _, ⟨_, rfl⟩⟩
  | reporterCycle now =>
      simp only [EngineOp.apply, threatIntelligenceCycle_fst]
      exact ⟨Finset.Subset.refl _, ⟨[], (List.append_nil _).symm⟩⟩
  | stopRun =>
      exact ⟨Finset.Subset.refl _, ⟨[], (List.append_nil _).symm⟩⟩

/-- C10: `_handle_brute_force` records its event at HIGH even though the
generic classifier maps the event's own confidence (0.9) to CRITICAL —
one level higher — and the event's action string and blocklist insertion
come from the handler itself, not from `_take_security_action` (its
string differs from both the HIGH and the CRITICAL responder strings). -/
theorem handleBruteForce_bypasses_responder (s : MojoMosaicSecurity)
    (ip : String) (attempts : ℕ) (now : ℚ) :
    (s.handleBruteForce ip attempts now).event_history =
      s.event_history ++ [bruteForceEvent ip attempts now] ∧
    (bruteForceEvent ip attempts now).threat_level = ThreatLevel.HIGH ∧
    s.calculateThreatLevel (bruteForceEvent ip attempts now).confidence =
      ThreatLevel.CRITICAL ∧
    (bruteForceEvent ip attempts now).threat_level.toNat <
      (s.calculateThreatLevel
        (bruteForceEvent ip attempts now).confidence).toNat ∧
    (s.handleBruteForce ip attempts now).blocked_ips =
      insert ip s.blocked_ips ∧
    (bruteForceEvent ip attempts now).action_taken ≠
      (s.takeSecurityAction ThreatLevel.HIGH ip).2 ∧
    (bruteForceEvent ip attempts now).action_taken ≠
      (s.takeSecurityAction ThreatLevel.CRITICAL ip).2 := by
  have hclass :
      s.calculateThreatLevel (bruteForceEvent ip attempts now).confidence =
        ThreatLevel.CRITICAL := by
    unfold MojoMosaicSecurity.calculateThreatLevel bruteForceEvent
    norm_num
  refine ⟨rfl, rfl, hclass, ?_, rfl, ?_, ?_⟩
  · rw [hclass]
    exact Nat.lt_succ_self 2
  · intro heq
    have hlen := congrArg String.length heq
    have l0 : ("IP " : String).length = 3 := rfl
    have l1 : (" blocked for 1 hour" : String).length = 19 := rfl
    have l2 : (" temporarily blocked" : String).length = 20 := rfl
    simp only [bruteForceEvent, MojoMosaicSecurity.takeSecurityAction,
      securityActionString, String.length_append, l0, l1, l2] at hlen
    omega
  · intro heq
    have hlen := congrArg String.length heq
    have l0 : ("IP " : String).length = 3 := rfl
    have l1 : (" blocked for 1 hour" : String).length = 19 := rfl
    have l3 : (" permanently blocked, admin alerted" : String).length = 35 :=
      rfl
    simp only [bruteForceEvent, MojoMosaicSecurity.takeSecurityAction,
      securityActionString, String.length_append, l0, l1, l3] at hlen
    omega

/-- Witness for C10 at a concrete brute-force detection. -/
theorem handleBruteForce_bypasses_responder_witness :
    (bruteForceEvent "10.0.0.5" 5 0).threat_level = ThreatLevel.HIGH ∧
    MojoMosaicSecurity.init.calculateThreatLevel
        (bruteForceEvent "10.0.0.5" 5 0).confidence = ThreatLevel.CRITICAL ∧
    (bruteForceEvent "10.0.0.5" 5 0).action_taken ≠
      (MojoMosaicSecurity.init.takeSecurityAction ThreatLevel.HIGH
        "10.0.0.5").2 :=
  ⟨(handleBruteForce_bypasses_responder MojoMosaicSecurity.init "10.0.0.5"
      5 0).2.1,
    (handleBruteForce_bypasses_responder MojoMosaicSecurity.init "10.0.0.5"
      5 0).2.2.1,
    (handleBruteForce_bypasses_responder MojoMosaicSecurity.init "10.0.0.5"
      5 0).2.2.2.2.2.1⟩
